import Mathlib

/-!
# Verification of the Async-Mojang request engine and profile decoder

Shallow embedding of `async_mojang/_http_client.py`, `async_mojang/errors.py`,
`async_mojang/_types.py` and `async_mojang/api.py`.

Modelling conventions:
* JSON values (the results of Python `json.loads` / `aiohttp` `resp.json()`)
  are the inductive `Json`; numbers are restricted to integers, which covers
  every payload this client consumes.
* A Python exception that is *not* a `MojangError` and escapes the library
  (`TypeError`, `AttributeError`, ...) is the `Raised.pyerror` constructor;
  a raised `MojangError` subclass is `Raised.mojang`.
* `aiohttp.ClientResponse` is `Response`: its HTTP status, the result of
  `resp.json()` (`none` when the body is not parsable as JSON, which raises
  `JSONDecodeError`/`ContentTypeError`), the reason phrase and the URL path.
* Time never passes in the embedding; the delays handed to `asyncio.sleep`
  are accumulated in a list (rational time units; `ratelimit_sleep_time`
  is a Python float, modelled as a rational).
-/

namespace AsyncMojang

/-- A JSON value as produced by Python `json.loads`.  Object fields are kept
as an association list with distinct keys (Python dicts keep one binding per
key). Numbers are restricted to integers. -/
inductive Json where
  | obj (entries : List (String × Json))
  | arr (items : List Json)
  | str (text : String)
  | num (value : Int)
  | bool (flag : Bool)
  | null

/-- Python truthiness `bool(x)` of a JSON value (used by `or` chains and
by `if raw` / `bool(...)` in the source). -/
def Json.truthy : Json → Bool
  | .null => false
  | .bool b => b
  | .num n => n != 0
  | .str s => s != ""
  | .arr xs => !xs.isEmpty
  | .obj fs => !fs.isEmpty

/-- Association-list lookup modelling Python `dict[key]` presence. -/
def jsonLookup : List (String × Json) → String → Option Json
  | [], _ => none
  | (k, v) :: rest, key => if k == key then some v else jsonLookup rest key

/-- Python exceptions (other than the library's own `MojangError` hierarchy)
that the embedded code can raise or catch. -/
inductive PyExc where
  | keyError
  | indexError
  | typeError
  | attributeError
  | valueError
deriving DecidableEq

/-- The error taxonomy of `errors.py`, as a closed enumeration of kinds. -/
inductive ErrKind where
  | badRequest
  | unauthorized
  | forbidden
  | notFound
  | tooManyRequests
  | serverError
  | malformedResponse
  | generic
deriving DecidableEq

/-- A raised `MojangError`: its class (kind) plus the `status` and `detail`
attributes set by `__init__`.  `detail` is annotated `str` in the source but
not enforced at runtime, hence it is an arbitrary `Json` value here. -/
structure MojangErr where
  kind : ErrKind
  status : Nat
  detail : Json

/-- What escapes a library call: a `MojangError`, or a plain Python
exception that the code does not catch. -/
inductive Raised where
  | mojang (e : MojangErr)
  | pyerror (e : PyExc)

/-- One HTTP response, as observed through `aiohttp.ClientResponse`. -/
structure Response where
  status : Nat
  /-- Body: `some j` when `await resp.json()` succeeds with value `j`;
  `none`: it raises `json.JSONDecodeError` / `aiohttp.ContentTypeError`. -/
  body : Option Json
  reason : Option String
  path : String

/-- Table `_STATUS_TO_ERROR` from `_http_client.py`. -/
def statusToError : Nat → Option ErrKind
  | 400 => some .badRequest
  | 401 => some .unauthorized
  | 403 => some .forbidden
  | 404 => some .notFound
  | 429 => some .tooManyRequests
  | _ => none

/-- The raise cascade at the end of `_raise_for_status`: the status table,
then the `>= 500` range check, then the generic `MojangError`. -/
def mkStatusError (status : Nat) (detail : Json) : MojangErr :=
  match statusToError status with
  | some k => ⟨k, status, detail⟩
  | none => if 500 ≤ status then ⟨.serverError, status, detail⟩ else ⟨.generic, status, detail⟩

/-- The detail chain
`error_data.get("errorMessage") or error_data.get("error") or f"HTTP {status}"`
for a JSON-object error body: Python `or` selects the first truthy operand,
and `dict.get` with an absent key yields `None` (falsy). -/
def errorDetail (fields : List (String × Json)) (status : Nat) : Json :=
  let em := (jsonLookup fields "errorMessage").getD .null
  if em.truthy then em
  else
    let er := (jsonLookup fields "error").getD .null
    if er.truthy then er
    else .str ("HTTP " ++ toString status)

/-- Python `resp.reason or 'error'` (empty or absent reason phrase degrades). -/
def reasonOr : Option String → String
  | some s => if s == "" then "error" else s
  | none => "error"

/-- The fallback detail `f"HTTP {resp.status} {resp.reason or 'error'} for {resp.url.path}"`
used when the error body is not parsable as JSON. -/
def fallbackDetail (resp : Response) : String :=
  "HTTP " ++ toString resp.status ++ " " ++ reasonOr resp.reason ++ " for " ++ resp.path

/-- Model of `_HTTPClient._raise_for_status`.  When `resp.json()` fails the fallback
detail is used; when it yields a JSON object, the detail chain runs on it;
when it yields any other JSON value (list, string, number, bool, null) the
source calls `.get` on a non-dict and an `AttributeError` escapes, since the
surrounding `except` clause only catches `JSONDecodeError`/`ContentTypeError`. -/
def raiseForStatus (resp : Response) : Raised :=
  match resp.body with
  | none => .mojang (mkStatusError resp.status (.str (fallbackDetail resp)))
  | some (.obj fields) => .mojang (mkStatusError resp.status (errorDetail fields resp.status))
  | some _ => .pyerror .attributeError

/-- The configuration knobs of `_HTTPClient.__init__` (the session itself is
not part of the state machine). -/
structure Config where
  max_attempts : Nat
  retry_on_ratelimit : Bool
  ratelimit_sleep_time : ℚ

/-- Property `aiohttp.ClientResponse.ok`: true iff `status < 400`. -/
def respOk (status : Nat) : Bool := status < 400

/-- Model of `_HTTPClient._maybe_retry`, returning `some delay` when the source
returns `True` after sleeping `delay`, `none` when it returns `False`. -/
def maybeRetry (cfg : Config) (status attempt : Nat) : Option ℚ :=
  if cfg.max_attempts ≤ attempt then none
  else if status == 429 && cfg.retry_on_ratelimit then some cfg.ratelimit_sleep_time
  else if status == 502 || status == 503 || status == 504 then some ((2 : ℚ) ^ (attempt - 1))
  else none

/-- Observable outcome of one `_request` call: the returned value or the
escaping exception, the number of HTTP attempts issued, and the sequence of
delays passed to `asyncio.sleep`. -/
structure Outcome (T : Type) where
  result : Except Raised T
  attempts : Nat
  delays : List ℚ

/-- Bookkeeping for one granted retry: the outcome of the remaining
attempts, plus this attempt and the delay just slept. -/
def retryStep {T : Type} (d : ℚ) (rest : Outcome T) : Outcome T :=
  ⟨rest.result, rest.attempts + 1, d :: rest.delays⟩

/-- The attempt loop of `_HTTPClient._request`, from attempt number
`attempt` on.  `responses` gives the response the server would return to the
n-th attempt; `deser` is the supplied deserializer, whose failure
(`.error msg`) stands for the `json.JSONDecodeError`/`ContentTypeError`
caught by the source (`msg` the exception text). -/
def requestGo {T : Type} (cfg : Config) (method url : String)
    (responses : Nat → Response) (deser : Response → Except String T)
    (attempt : Nat) : Outcome T :=
  if respOk (responses attempt).status then
    match deser (responses attempt) with
    | .ok v => ⟨.ok v, 1, []⟩
    | .error msg =>
        ⟨.error (.mojang ⟨.malformedResponse, 0,
            .str ("Failed to deserialize " ++ method ++ " " ++ url ++ ": " ++ msg)⟩), 1, []⟩
  else
    match h : maybeRetry cfg (responses attempt).status attempt with
    | some d => retryStep d (requestGo cfg method url responses deser (attempt + 1))
    | none => ⟨.error (raiseForStatus (responses attempt)), 1, []⟩
termination_by cfg.max_attempts - attempt
decreasing_by
  have hlt : attempt < cfg.max_attempts := by
    by_contra hge
    rw [maybeRetry, if_pos (Nat.le_of_not_lt hge)] at h
    exact Option.noConfusion h
  omega

/-- Model of `_HTTPClient._request`: the attempt loop starts at attempt number 1. -/
def runRequest {T : Type} (cfg : Config) (method url : String)
    (responses : Nat → Response) (deser : Response → Except String T) : Outcome T :=
  requestGo cfg method url responses deser 1

/-! ## base64 decoding (`base64.b64decode` with `validate=False`) -/

/-- Value of a base-64 alphabet character. -/
def b64charVal (c : Char) : Option Nat :=
  if 'A' ≤ c ∧ c ≤ 'Z' then some (c.toNat - 65)
  else if 'a' ≤ c ∧ c ≤ 'z' then some (c.toNat - 71)
  else if '0' ≤ c ∧ c ≤ '9' then some (c.toNat + 4)
  else if c = '+' then some 62
  else if c = '/' then some 63
  else none

/-- Turn a run of 6-bit values into bytes: full quads give 3 bytes, a final
pair gives 1 byte and a final triple gives 2 bytes (a lone value is invalid
and checked by the caller). -/
def b64decodeVals : List Nat → List Nat
  | a :: b :: c :: d :: rest =>
      let n := ((a * 64 + b) * 64 + c) * 64 + d
      (n / 65536) :: (n / 256 % 256) :: (n % 256) :: b64decodeVals rest
  | [a, b] => [(a * 64 + b) / 16]
  | [a, b, c] => [((a * 64 + b) * 64 + c) / 1024, ((a * 64 + b) * 64 + c) / 4 % 256]
  | _ => []

/-- Model of `base64.b64decode(s)` with default `validate=False`: characters outside
the alphabet and `=` are discarded, then the length must be a multiple of 4
(`binascii.Error: Incorrect padding` otherwise, returned as `none`). -/
def b64decode (s : String) : Option (List Nat) :=
  let cs := s.data.filter (fun c => (b64charVal c).isSome || c == '=')
  if cs.length % 4 != 0 then none
  else
    let main := cs.takeWhile (fun c => c != '=')
    if main.length % 4 == 1 then none
    else some (b64decodeVals (main.filterMap b64charVal))

/-! ## A JSON parser (`json.loads`)

Fuel-indexed recursive-descent parser.  It models `json.loads` on the
payloads this library consumes: ASCII text, integral numbers (a fractional
or exponent part makes the parse fail, as does a non-UTF-8 byte — neither
occurs in Mojang payloads). -/

/-- Skip JSON whitespace. -/
def skipWs : List Char → List Char
  | c :: rest => if c = ' ' ∨ c = '\t' ∨ c = '\n' ∨ c = '\r' then skipWs rest else c :: rest
  | [] => []

/-- Hexadecimal digit value. -/
def hexVal (c : Char) : Option Nat :=
  if c.isDigit then some (c.toNat - 48)
  else if 'A' ≤ c ∧ c ≤ 'F' then some (c.toNat - 55)
  else if 'a' ≤ c ∧ c ≤ 'f' then some (c.toNat - 87)
  else none

/-- Single-character JSON string escapes. -/
def escChar : Char → Option Char
  | 'n' => some '\n'
  | 't' => some '\t'
  | 'r' => some '\r'
  | 'b' => some (Char.ofNat 8)
  | 'f' => some (Char.ofNat 12)
  | '"' => some '"'
  | '/' => some '/'
  | '\\' => some '\\'
  | _ => none

/-- Parse the contents of a JSON string after the opening quote, returning
the characters and the remainder after the closing quote. -/
def parseStringChars : List Char → Option (List Char × List Char)
  | [] => none
  | '"' :: rest => some ([], rest)
  | '\\' :: 'u' :: a :: b :: c :: d :: rest => do
      let ha ← hexVal a
      let hb ← hexVal b
      let hc ← hexVal c
      let hd ← hexVal d
      let (cs, r) ← parseStringChars rest
      some (Char.ofNat (((ha * 16 + hb) * 16 + hc) * 16 + hd) :: cs, r)
  | '\\' :: e :: rest => do
      let ec ← escChar e
      let (cs, r) ← parseStringChars rest
      some (ec :: cs, r)
  | c :: rest => (parseStringChars rest).map (fun p => (c :: p.1, p.2))

/-- Split off a maximal run of decimal digits. -/
def takeDigits (cs : List Char) : List Char × List Char :=
  (cs.takeWhile Char.isDigit, cs.dropWhile Char.isDigit)

/-- Numeric value of a digit run. -/
def digitsToNat (ds : List Char) : Nat :=
  ds.foldl (fun acc c => acc * 10 + (c.toNat - 48)) 0

mutual

/-- Parse one JSON value. -/
def parseValue : Nat → List Char → Option (Json × List Char)
  | 0, _ => none
  | fuel + 1, cs =>
    match skipWs cs with
    | 'n' :: 'u' :: 'l' :: 'l' :: rest => some (.null, rest)
    | 't' :: 'r' :: 'u' :: 'e' :: rest => some (.bool true, rest)
    | 'f' :: 'a' :: 'l' :: 's' :: 'e' :: rest => some (.bool false, rest)
    | '"' :: rest => (parseStringChars rest).map (fun p => (.str (String.mk p.1), p.2))
    | '[' :: rest =>
        (match skipWs rest with
         | ']' :: rest2 => some (.arr [], rest2)
         | _ => (parseElems fuel rest).map (fun p => (.arr p.1, p.2)))
    | '{' :: rest =>
        (match skipWs rest with
         | '}' :: rest2 => some (.obj [], rest2)
         | _ => (parseMembers fuel rest).map (fun p => (.obj p.1, p.2)))
    | '-' :: rest =>
        (match takeDigits rest with
         | ([], _) => none
         | (ds, r) => some (.num (-(digitsToNat ds : Int)), r))
    | other =>
        (match takeDigits other with
         | ([], _) => none
         | (ds, r) => some (.num (digitsToNat ds), r))

/-- Parse the elements of a non-empty JSON array after the opening bracket. -/
def parseElems : Nat → List Char → Option (List Json × List Char)
  | 0, _ => none
  | fuel + 1, cs => do
    let (v, r) ← parseValue fuel cs
    match skipWs r with
    | ',' :: r2 => do
        let (vs, r3) ← parseElems fuel r2
        some (v :: vs, r3)
    | ']' :: r2 => some ([v], r2)
    | _ => none

/-- Parse the members of a non-empty JSON object after the opening brace. -/
def parseMembers : Nat → List Char → Option (List (String × Json) × List Char)
  | 0, _ => none
  | fuel + 1, cs =>
    match skipWs cs with
    | '"' :: rest => do
        let (ks, r) ← parseStringChars rest
        match skipWs r with
        | ':' :: r2 => do
            let (v, r3) ← parseValue fuel r2
            (match skipWs r3 with
             | ',' :: r4 => do
                 let (ms, r5) ← parseMembers fuel r4
                 some ((String.mk ks, v) :: ms, r5)
             | '}' :: r4 => some ([(String.mk ks, v)], r4)
             | _ => none)
        | _ => none
    | _ => none

end

/-- Model of `json.loads` on a string: parse one value, allow trailing whitespace only. -/
def jsonParse (s : String) : Option Json :=
  match parseValue (s.length + 1) s.data with
  | some (v, rest) => if (skipWs rest).isEmpty then some v else none
  | none => none

/-- Bytes decoded as text (ASCII payloads; see the parser note above). -/
def bytesToChars (bs : List Nat) : List Char :=
  bs.map Char.ofNat

/-- Model of `json.loads` applied to a byte string. -/
def jsonParseBytes (bs : List Nat) : Option Json :=
  jsonParse (String.mk (bytesToChars bs))

/-! ## `uuid.UUID` and Python primitives used by `api.py` -/

/-- Is the character one of the braces stripped by `uuid.UUID`. -/
def isBraceChar (c : Char) : Bool :=
  c == '{' || c == '}'

/-- Python `str.strip('\x7b\x7d')`: remove braces from both ends. -/
def stripBraces (cs : List Char) : List Char :=
  ((cs.dropWhile isBraceChar).reverse.dropWhile isBraceChar).reverse

/-- Model of Python `str.replace(pattern, "")` for a nonempty `pattern`:
remove every (non-overlapping, leftmost-first) occurrence.  Fuel-indexed so
that it is structurally recursive; `removeMarker` supplies ample fuel. -/
def removeMarkerAux (pattern : List Char) : Nat → List Char → List Char
  | 0, cs => cs
  | _, [] => []
  | fuel + 1, c :: rest =>
      if (c :: rest).take pattern.length == pattern then
        removeMarkerAux pattern fuel (List.drop pattern.length (c :: rest))
      else c :: removeMarkerAux pattern fuel rest

/-- Python `s.replace(pattern, "")` on a character list. -/
def removeMarker (pattern : String) (cs : List Char) : List Char :=
  removeMarkerAux pattern.data (cs.length + 1) cs

/-- Model of `uuid.UUID(hex=s).int`: drop `urn:`/`uuid:` markers, strip braces,
remove dashes, then require exactly 32 hex digits (`ValueError`, returned
as `none`, otherwise). -/
def parseUUID (s : String) : Option Nat :=
  let cs0 := removeMarker "uuid:" (removeMarker "urn:" s.data)
  let cs := (stripBraces cs0).filter (fun c => c != '-')
  if cs.length == 32 && cs.all (fun c => (hexVal c).isSome) then
    some (cs.foldl (fun acc c => acc * 16 + ((hexVal c).getD 0)) 0)
  else none

/-- Python subscription `x[key]` with a string key: a dict lookup
(`KeyError` when absent); any non-dict raises `TypeError`. -/
def pyIndexStr : Json → String → Except PyExc Json
  | .obj fields, key =>
      match jsonLookup fields key with
      | some v => .ok v
      | none => .error .keyError
  | _, _ => .error .typeError

/-- Python subscription `x[i]` with an integer index: list indexing
(`IndexError` out of range), string indexing (yielding a one-character
string), a dict raises `KeyError` (JSON dicts are string-keyed), anything
else `TypeError`. -/
def pyIndexNat : Json → Nat → Except PyExc Json
  | .arr xs, i =>
      match xs.get? i with
      | some v => .ok v
      | none => .error .indexError
  | .str s, i =>
      match s.data.get? i with
      | some c => .ok (.str (String.mk [c]))
      | none => .error .indexError
  | .obj _, _ => .error .keyError
  | _, _ => .error .typeError

/-- Python `x.get(key, default)`: a dict lookup with default, or
`AttributeError` when `x` is not a dict. -/
def pyGet (j : Json) (key : String) (default : Json) : Except PyExc Json :=
  match j with
  | .obj fields => .ok ((jsonLookup fields key).getD default)
  | _ => .error .attributeError

/-- Model of `uuid.UUID(x)` on an arbitrary value: a string is parsed (`ValueError`
on failure); a non-string reaches `hex.replace` inside `uuid.UUID.__init__`
and raises `AttributeError`. -/
def pyUUID : Json → Except PyExc Nat
  | .str s =>
      match parseUUID s with
      | some n => .ok n
      | none => .error .valueError
  | _ => .error .attributeError

/-! ## `UserProfile` and `_parse_profile` (`_types.py`, `api.py`) -/

/-- The `UserProfile` dataclass.  Its annotations (`timestamp: int`,
`name: str`, ...) are not enforced at runtime, so fields that
`_parse_profile` stores without conversion are arbitrary `Json` values;
`id` goes through `uuid.UUID` and `is_legacy_profile` through `bool`. -/
structure UserProfile where
  id : Nat
  timestamp : Json
  name : Json
  is_legacy_profile : Bool
  skin_variant : Json
  skin_url : Json
  cape_url : Json

/-- Detail of the first `MalformedResponse` in `_parse_profile`
(the interpolated exception text is elided). -/
def texturesError : MojangErr :=
  ⟨.malformedResponse, 0, .str "Cannot decode profile textures"⟩

/-- Detail of the second `MalformedResponse` in `_parse_profile`
(the interpolated exception text is elided). -/
def profileFieldsError : MojangErr :=
  ⟨.malformedResponse, 0, .str "Profile payload missing or invalid field"⟩

/-- The `UserProfile(...)` construction inside the second `try` of
`_parse_profile`, with keyword arguments evaluated in source order. -/
def buildProfile (decoded textures skin : Json) : Except PyExc UserProfile := do
  let pid ← pyIndexStr decoded "profileId"
  let idv ← pyUUID pid
  let ts ← pyIndexStr decoded "timestamp"
  let nm ← pyIndexStr decoded "profileName"
  let legacy ← pyGet decoded "legacy" .null
  let skinUrl ← pyGet skin "url" .null
  let metadata ← pyGet skin "metadata" (.obj [])
  let model ← pyGet metadata "model" (.str "classic")
  let cape ← pyGet textures "CAPE" (.obj [])
  let capeUrl ← pyGet cape "url" .null
  return ⟨idv, ts, nm, legacy.truthy, model, skinUrl, capeUrl⟩

/-- Reading `data["properties"][0]["value"]` in `_parse_profile`. -/
def extractValue (data : Json) : Except PyExc Json := do
  let props ← pyIndexStr data "properties"
  let first ← pyIndexNat props 0
  pyIndexStr first "value"

/-- Model of `_parse_profile`.  The first `try` catches exactly `KeyError`,
`IndexError`, `json.JSONDecodeError` and `binascii.Error`; base64 and JSON
failures are inlined below (`b64decode`/`jsonParseBytes` returning `none`).
`base64.b64decode` on a non-string raises an uncaught `TypeError`.  The
`decoded.get("textures", {})` / `textures.get("SKIN", {})` lines sit outside
both `try` blocks, so their `AttributeError`s escape.  The second `try`
catches exactly `KeyError` and `ValueError`. -/
def parseProfile (data : Json) : Except Raised UserProfile :=
  match extractValue data with
  | .error e =>
      if e = .keyError ∨ e = .indexError then .error (.mojang texturesError)
      else .error (.pyerror e)
  | .ok (.str vs) =>
      (match b64decode vs with
       | none => .error (.mojang texturesError)
       | some bytes =>
         match jsonParseBytes bytes with
         | none => .error (.mojang texturesError)
         | some decoded =>
           match pyGet decoded "textures" (.obj []) with
           | .error e => .error (.pyerror e)
           | .ok textures =>
             match pyGet textures "SKIN" (.obj []) with
             | .error e => .error (.pyerror e)
             | .ok skin =>
               match buildProfile decoded textures skin with
               | .ok p => .ok p
               | .error e =>
                   if e = .keyError ∨ e = .valueError then
                     .error (.mojang profileFieldsError)
                   else .error (.pyerror e))
  | .ok _ => .error (.pyerror .typeError)

/-! ## The caller layer (`api.py`) -/

/-- Clause `except _NOT_FOUND_ERRORS`: catches exactly the `NotFound` and
`BadRequest` exception classes. -/
def caughtNotFound : Raised → Bool
  | .mojang ⟨.notFound, _, _⟩ => true
  | .mojang ⟨.badRequest, _, _⟩ => true
  | _ => false

/-- Model of `API.get_uuid`, from the outcome of `_get_json` on.  `some n` models a
returned `uuid.UUID`, `none` a returned Python `None`. -/
def getUuid (res : Except Raised Json) : Except Raised (Option Nat) :=
  match res with
  | .error r => if caughtNotFound r then .ok none else .error r
  | .ok data =>
      match pyIndexStr data "id" with
      | .error e =>
          if e = .keyError ∨ e = .typeError ∨ e = .attributeError then
            .error (.mojang ⟨.malformedResponse, 0, .str "UUID lookup response missing id"⟩)
          else .error (.pyerror e)
      | .ok raw =>
          if raw.truthy then
            match pyUUID raw with
            | .ok n => .ok (some n)
            | .error e => .error (.pyerror e)
          else .ok none

/-- Python iteration `for entry in data` over a JSON value: lists yield
elements, dicts their keys, strings their characters; other values raise
`TypeError`. -/
def pyIterate : Json → Except PyExc (List Json)
  | .arr xs => .ok xs
  | .obj fs => .ok (fs.map (fun kv => Json.str kv.1))
  | .str s => .ok (s.data.map (fun c => Json.str (String.mk [c])))
  | _ => .error .typeError

/-- The dict comprehension in `get_uuids`:
key `entry["name"]` then value `uuid.UUID(entry["id"])` per entry. -/
def batchEntries : List Json → Except PyExc (List (Json × Nat))
  | [] => .ok []
  | entry :: rest => do
      let nm ← pyIndexStr entry "name"
      let idj ← pyIndexStr entry "id"
      let u ← pyUUID idj
      let tail ← batchEntries rest
      .ok ((nm, u) :: tail)

/-- Model of `API.get_uuids`, from the outcome of `_post_json` on; the returned dict
is modelled as an association list of (server-cased name, uuid) pairs. -/
def getUuids (res : Except Raised Json) : Except Raised (List (Json × Nat)) :=
  match res with
  | .error r => if caughtNotFound r then .ok [] else .error r
  | .ok data =>
      match (do batchEntries (← pyIterate data) : Except PyExc _) with
      | .ok out => .ok out
      | .error e =>
          if e = .typeError ∨ e = .keyError ∨ e = .valueError then
            .error (.mojang ⟨.malformedResponse, 0, .str "Unexpected batch-lookup response shape"⟩)
          else .error (.pyerror e)

/-- Model of `API.get_username`, from the outcome of `_get_json` on. -/
def getUsername (res : Except Raised Json) : Except Raised (Option Json) :=
  match res with
  | .error r => if caughtNotFound r then .ok none else .error r
  | .ok data =>
      match pyIndexStr data "name" with
      | .ok v => .ok (some v)
      | .error e =>
          if e = .keyError ∨ e = .typeError ∨ e = .attributeError then
            .error (.mojang ⟨.malformedResponse, 0, .str "Profile response missing name"⟩)
          else .error (.pyerror e)

/-- Model of `API.get_profile`, from the outcome of `_get_json` on. -/
def getProfile (res : Except Raised Json) : Except Raised (Option UserProfile) :=
  match res with
  | .error r => if caughtNotFound r then .ok none else .error r
  | .ok data =>
      match parseProfile data with
      | .ok p => .ok (some p)
      | .error r => .error r

/-! ## Derived predicates and concrete documents used by the statements -/

/-- Does a library call end in a raised `MalformedResponse` (which always
carries `status = 0`)? -/
def isMalformedFailure {T : Type} : Except Raised T → Bool
  | .error (.mojang ⟨.malformedResponse, 0, _⟩) => true
  | _ => false

/-- The structural problems of a raw profile document that `_parse_profile`
turns into `MalformedResponse`: a missing `properties[0].value` path (within
dict/list-shaped documents, where the lookup raises `KeyError`/`IndexError`),
a string value that fails base64 decoding, decoded bytes (ASCII text here)
that fail JSON parsing, a missing required key among `profileId`,
`timestamp`, `profileName`, or a `profileId` string that is not a valid
UUID.  The last three require the `textures`/`SKIN` chain to be dict-shaped,
since a non-dict there makes an `AttributeError` escape first. -/
def profileStructFailure (doc : Json) : Prop :=
  extractValue doc = .error .keyError ∨
  extractValue doc = .error .indexError ∨
  (∃ v, extractValue doc = .ok (.str v) ∧ b64decode v = none) ∨
  (∃ v bs, extractValue doc = .ok (.str v) ∧ b64decode v = some bs ∧
    jsonParseBytes bs = none) ∨
  (∃ v bs fs tfs sfs, extractValue doc = .ok (.str v) ∧ b64decode v = some bs ∧
    jsonParseBytes bs = some (.obj fs) ∧
    (jsonLookup fs "textures").getD (.obj []) = .obj tfs ∧
    (jsonLookup tfs "SKIN").getD (.obj []) = .obj sfs ∧
    (jsonLookup fs "profileId" = none ∨
     (∃ pid, jsonLookup fs "profileId" = some (.str pid) ∧ parseUUID pid = none) ∨
     (∃ pid u, jsonLookup fs "profileId" = some (.str pid) ∧ parseUUID pid = some u ∧
       (jsonLookup fs "timestamp" = none ∨
        ((jsonLookup fs "timestamp").isSome ∧ jsonLookup fs "profileName" = none)))))

/-- A raw profile document whose `properties[0].value` is the given string. -/
def mkProfileDoc (v : String) : Json :=
  .obj [("properties", .arr [.obj [("value", .str v)]])]

/-- base64 of the section-8 example payload
`{"profileId":"069a79f444e94726a5befca90e38aaf5","timestamp":1,"profileName":"Notch","legacy":false,"textures":{"SKIN":{"url":"http://x","metadata":{"model":"slim"}}}}`. -/
def b64SlimPayload : String :=
  "eyJwcm9maWxlSWQiOiIwNjlhNzlmNDQ0ZTk0NzI2YTViZWZjYTkwZTM4YWFmNSIsInRpbWVzdGFtcCI6MSwicHJvZmlsZU5hbWUiOiJOb3RjaCIsImxlZ2FjeSI6ZmFsc2UsInRleHR1cmVzIjp7IlNLSU4iOnsidXJsIjoiaHR0cDovL3giLCJtZXRhZGF0YSI6eyJtb2RlbCI6InNsaW0ifX19fQ=="

/-- base64 of the same payload with an empty `textures` object (no `SKIN`). -/
def b64NoSkinPayload : String :=
  "eyJwcm9maWxlSWQiOiIwNjlhNzlmNDQ0ZTk0NzI2YTViZWZjYTkwZTM4YWFmNSIsInRpbWVzdGFtcCI6MSwicHJvZmlsZU5hbWUiOiJOb3RjaCIsImxlZ2FjeSI6ZmFsc2UsInRleHR1cmVzIjp7fX0="

/-- base64 of
`{"profileId":"069a79f444e94726a5befca90e38aaf5","timestamp":"hi","profileName":"Notch"}`
— the required `timestamp` field is present but mistyped (a string). -/
def b64BadTimestampPayload : String :=
  "eyJwcm9maWxlSWQiOiIwNjlhNzlmNDQ0ZTk0NzI2YTViZWZjYTkwZTM4YWFmNSIsInRpbWVzdGFtcCI6ImhpIiwicHJvZmlsZU5hbWUiOiJOb3RjaCJ9"

/-- base64 of
`{"profileId":"069a79f444e94726a5befca90e38aaf5","timestamp":1,"profileName":"N","textures":{"SKIN":{"url":"http://x","metadata":{"model":""}}}}`
— texture metadata carries an empty `model` string. -/
def b64EmptyModelPayload : String :=
  "eyJwcm9maWxlSWQiOiIwNjlhNzlmNDQ0ZTk0NzI2YTViZWZjYTkwZTM4YWFmNSIsInRpbWVzdGFtcCI6MSwicHJvZmlsZU5hbWUiOiJOIiwidGV4dHVyZXMiOnsiU0tJTiI6eyJ1cmwiOiJodHRwOi8veCIsIm1ldGFkYXRhIjp7Im1vZGVsIjoiIn19fX0="

/-- The integer value of UUID `069a79f444e94726a5befca90e38aaf5`. -/
def exampleUUID : Nat := 8777455215484550409597702120127638261

/-! ## Helper lemmas -/

/-- A granted retry implies attempts remain (`_maybe_retry` checks
`attempt >= self._max_attempts` first). -/
theorem maybeRetry_isSome_lt {cfg : Config} {status attempt : Nat} {d : ℚ}
    (h : maybeRetry cfg status attempt = some d) : attempt < cfg.max_attempts := by
  by_contra hge
  rw [maybeRetry, if_pos (Nat.le_of_not_lt hge)] at h
  exact Option.noConfusion h

/-- From attempt number `attempt` on, the loop issues at most
`max_attempts - attempt + 1` further attempts. -/
theorem requestGo_attempts_le {T : Type} (cfg : Config) (method url : String)
    (responses : Nat → Response) (deser : Response → Except String T) :
    ∀ fuel attempt, cfg.max_attempts - attempt ≤ fuel →
      (requestGo cfg method url responses deser attempt).attempts ≤
        cfg.max_attempts - attempt + 1 := by
  intro fuel
  induction fuel with
  | zero =>
      intro attempt hf
      rw [requestGo]
      split
      · split <;> simp
      · split
        · rename_i d hd
          exact absurd (maybeRetry_isSome_lt hd) (by omega)
        · simp
  | succ n ih =>
      intro attempt hf
      rw [requestGo]
      split
      · split <;> simp
      · split
        · rename_i d hd
          have h1 := maybeRetry_isSome_lt hd
          have h2 := ih (attempt + 1) (by omega)
          simp only [retryStep]
          omega
        · simp

/-! ## The claims -/

/-- C1: for every configuration with `max_attempts ≥ 1` and every sequence
of responses, one `_request` call issues at most `max_attempts` HTTP
attempts, and `_maybe_retry` refuses to retry once `attempt ≥ max_attempts`. -/
theorem c1_attempts_bounded {T : Type} (cfg : Config) (method url : String)
    (responses : Nat → Response) (deser : Response → Except String T)
    (hmax : 1 ≤ cfg.max_attempts) (status attempt : Nat)
    (hlate : cfg.max_attempts ≤ attempt) :
    (runRequest cfg method url responses deser).attempts ≤ cfg.max_attempts ∧
    maybeRetry cfg status attempt = none := by
  constructor
  · have h := requestGo_attempts_le cfg method url responses deser cfg.max_attempts 1 (by omega)
    unfold runRequest
    omega
  · rw [maybeRetry, if_pos hlate]

/-- Witness for C1: a concrete configuration and an all-503 server. -/
theorem c1_witness :
    (runRequest ⟨3, false, 60⟩ "GET" "https://u" (fun _ => ⟨503, none, some "S", "/p"⟩)
        (fun _ => (.error "x" : Except String Json))).attempts ≤ 3 ∧
    maybeRetry ⟨3, false, 60⟩ 503 3 = none :=
  c1_attempts_bounded ⟨3, false, 60⟩ "GET" "https://u" _ _ (by decide) 503 3 (by decide)

/-- C2: an attempt with a success (2xx) status whose body the deserializer
rejects fails immediately with `MalformedResponse` carrying `status = 0` and
a detail describing the parse failure, after exactly one attempt and no
delays, regardless of the remaining attempt budget. -/
theorem c2_decode_failure_immediate {T : Type} (cfg : Config) (method url : String)
    (responses : Nat → Response) (deser : Response → Except String T) (msg : String)
    (hlo : 200 ≤ (responses 1).status) (hhi : (responses 1).status < 300)
    (hde : deser (responses 1) = .error msg) :
    runRequest cfg method url responses deser =
      ⟨.error (.mojang ⟨.malformedResponse, 0,
          .str ("Failed to deserialize " ++ method ++ " " ++ url ++ ": " ++ msg)⟩), 1, []⟩ := by
  have hok : respOk (responses 1).status = true := by
    simp only [respOk, decide_eq_true_eq]
    omega
  unfold runRequest
  rw [requestGo]
  simp [hok, hde]

/-- Witness for C2: a 200 response whose body fails to deserialize. -/
theorem c2_witness :
    runRequest ⟨3, false, 60⟩ "GET" "https://u" (fun _ => ⟨200, some .null, none, "/p"⟩)
        (fun _ => (.error "boom" : Except String Json)) =
      ⟨.error (.mojang ⟨.malformedResponse, 0,
          .str "Failed to deserialize GET https://u: boom"⟩), 1, []⟩ :=
  (c2_decode_failure_immediate ⟨3, false, 60⟩ "GET" "https://u" _ _ "boom"
      (by decide) (by decide) rfl).trans rfl

/-- C3: with `max_attempts = 3` and every attempt answered 503, `_request`
makes exactly 3 attempts, sleeps exactly the backoff delays 1 and 2
(`2^(n-1)` before attempt `n+1`), and raises `ServerError` with
`status = 503`. -/
theorem c3_503_exhausts_retries (b : Bool) (q : ℚ) (method url : String)
    (deser : Response → Except String Json) :
    runRequest ⟨3, b, q⟩ method url
        (fun _ => ⟨503, none, some "Service Unavailable", "/p"⟩) deser =
      ⟨.error (.mojang ⟨.serverError, 503, .str "HTTP 503 Service Unavailable for /p"⟩),
       3, [1, 2]⟩ := by
  have h3 : requestGo ⟨3, b, q⟩ method url
      (fun _ => ⟨503, none, some "Service Unavailable", "/p"⟩) deser 3 =
      ⟨.error (.mojang ⟨.serverError, 503, .str "HTTP 503 Service Unavailable for /p"⟩),
       1, []⟩ := by
    rw [requestGo]
    norm_num [respOk, maybeRetry]
    rfl
  have h2 : requestGo ⟨3, b, q⟩ method url
      (fun _ => ⟨503, none, some "Service Unavailable", "/p"⟩) deser 2 =
      ⟨.error (.mojang ⟨.serverError, 503, .str "HTTP 503 Service Unavailable for /p"⟩),
       2, [2]⟩ := by
    rw [requestGo]
    norm_num [respOk, h3, retryStep]
    split
    · rename_i d hd
      norm_num [maybeRetry] at hd
      rw [hd]
    · rename_i hd
      norm_num [maybeRetry] at hd
      exact Option.noConfusion hd
  have h1 : requestGo ⟨3, b, q⟩ method url
      (fun _ => ⟨503, none, some "Service Unavailable", "/p"⟩) deser 1 =
      ⟨.error (.mojang ⟨.serverError, 503, .str "HTTP 503 Service Unavailable for /p"⟩),
       3, [1, 2]⟩ := by
    rw [requestGo]
    norm_num [respOk, h2, retryStep]
    split
    · rename_i d hd
      norm_num [maybeRetry] at hd
      rw [hd]
    · rename_i hd
      norm_num [maybeRetry] at hd
      exact Option.noConfusion hd
  exact h1

/-- Witness for C3 at a concrete deserializer. -/
theorem c3_witness :
    runRequest ⟨3, false, 60⟩ "GET" "https://u"
        (fun _ => ⟨503, none, some "Service Unavailable", "/p"⟩)
        (fun _ => (.error "x" : Except String Json)) =
      ⟨.error (.mojang ⟨.serverError, 503, .str "HTTP 503 Service Unavailable for /p"⟩),
       3, [1, 2]⟩ :=
  c3_503_exhausts_retries false 60 "GET" "https://u" _

/-- A status that is neither transient (502/503/504) nor a retryable 429 is
never granted a retry by `_maybe_retry`. -/
theorem maybeRetry_nontransient_none (cfg : Config) (status attempt : Nat)
    (h502 : status ≠ 502) (h503 : status ≠ 503) (h504 : status ≠ 504)
    (h429 : status = 429 → cfg.retry_on_ratelimit = false) :
    maybeRetry cfg status attempt = none := by
  rw [maybeRetry]
  split
  · rfl
  · rw [if_neg, if_neg]
    · simp only [Bool.or_eq_true, beq_iff_eq]
      rintro ((h | h) | h)
      exacts [h502 h, h503 h, h504 h]
    · simp only [Bool.and_eq_true, beq_iff_eq]
      rintro ⟨h1, h2⟩
      rw [h429 h1] at h2
      exact Bool.noConfusion h2

/-- C4 is false as stated: a 429 response with `retry_on_ratelimit = false`
whose body parses as a JSON array is surfaced immediately (one attempt, no
delays), but what escapes is an uncaught `AttributeError` from the detail
derivation, not `TooManyRequests(status = 429)`. -/
theorem c4_counterexample :
    runRequest ⟨3, false, 60⟩ "GET" "https://u"
        (fun _ => ⟨429, some (.arr []), some "Too Many Requests", "/q"⟩)
        (fun _ => (.error "x" : Except String Json)) =
      ⟨.error (.pyerror .attributeError), 1, []⟩ := by
  unfold runRequest
  rw [requestGo]
  rfl

/-- C4 (amended): every non-success status outside the transient set — any
status other than 502/503/504, and 429 when `retry_on_ratelimit` is false —
is surfaced at the attempt where it occurs as the outcome of
`_raise_for_status`, with zero retries and zero delays, even if attempts
remain.  When the body is not parsable JSON or parses to a JSON object that
outcome is the classified `MojangError` — in particular a 429 with
`retry_on_ratelimit = false` and such a body raises
`TooManyRequests(status = 429)` immediately; a body parsing to non-object
JSON instead escapes with `AttributeError` (see the counterexample). -/
theorem c4_nontransient_immediate {T : Type} (cfg : Config) (method url : String)
    (responses : Nat → Response) (deser : Response → Except String T) (attempt : Nat)
    (hnok : ¬ (responses attempt).status < 400)
    (h502 : (responses attempt).status ≠ 502)
    (h503 : (responses attempt).status ≠ 503)
    (h504 : (responses attempt).status ≠ 504)
    (h429 : (responses attempt).status = 429 → cfg.retry_on_ratelimit = false) :
    requestGo cfg method url responses deser attempt =
      ⟨.error (raiseForStatus (responses attempt)), 1, []⟩ := by
  have hok : respOk (responses attempt).status = false := by
    simp only [respOk, decide_eq_false_iff_not]
    exact hnok
  have hmr := maybeRetry_nontransient_none cfg (responses attempt).status attempt
    h502 h503 h504 h429
  rw [requestGo, hok]
  simp only [Bool.false_eq_true, if_false]
  split
  · rename_i d hd
    rw [hmr] at hd
    exact Option.noConfusion hd
  · rfl

/-- Witness for C4 (amended): a 429 with retry disabled and a body that is
not parsable as JSON raises `TooManyRequests(status = 429)` on attempt 1. -/
theorem c4_witness :
    requestGo ⟨3, false, 60⟩ "GET" "https://u"
        (fun _ => ⟨429, none, some "Too Many Requests", "/q"⟩)
        (fun _ => (.error "x" : Except String Json)) 1 =
      ⟨.error (.mojang ⟨.tooManyRequests, 429, .str "HTTP 429 Too Many Requests for /q"⟩),
       1, []⟩ :=
  (c4_nontransient_immediate ⟨3, false, 60⟩ "GET" "https://u"
      (fun _ => ⟨429, none, some "Too Many Requests", "/q"⟩)
      (fun _ => (.error "x" : Except String Json)) 1
      (by decide) (by decide) (by decide) (by decide) (fun _ => rfl)).trans rfl

/-- C5 is false as stated: a 400 response whose body parses as JSON (the
JSON string `"oops"`) but is not an object makes the detail derivation
itself fail — the `.get` call on a non-dict raises an uncaught
`AttributeError` instead of degrading to a fallback detail. -/
theorem c5_counterexample :
    raiseForStatus ⟨400, some (.str "oops"), some "Bad Request", "/q"⟩ =
      .pyerror .attributeError := rfl

/-- C5 (amended): when the body is not parsable as JSON the classifier
produces a `MojangError` whose detail is
`"HTTP <status> <reason-phrase> for <path>"`; when the body parses to a JSON
object it produces a `MojangError` whose detail is the first Python-truthy
of the `errorMessage` field, the `error` field, and `"HTTP <status>"`
(a present-but-falsy field is skipped, not used).  In these two cases the
derivation never fails; a body parsing to a non-object JSON value instead
escapes with `AttributeError` (see the counterexample). -/
theorem c5_detail_derivation (status : Nat) (reason : Option String) (path : String)
    (fields : List (String × Json)) :
    raiseForStatus ⟨status, none, reason, path⟩ =
      .mojang (mkStatusError status (.str
        ("HTTP " ++ toString status ++ " " ++ reasonOr reason ++ " for " ++ path))) ∧
    raiseForStatus ⟨status, some (.obj fields), reason, path⟩ =
      .mojang (mkStatusError status
        (if ((jsonLookup fields "errorMessage").getD .null).truthy then
           (jsonLookup fields "errorMessage").getD .null
         else if ((jsonLookup fields "error").getD .null).truthy then
           (jsonLookup fields "error").getD .null
         else .str ("HTTP " ++ toString status))) :=
  ⟨rfl, rfl⟩

/-- Witness for C5 (amended): a 404 whose error body carries a falsy
`errorMessage` and a truthy `error` yields `NotFound` with detail "gone". -/
theorem c5_witness :
    raiseForStatus
        ⟨404, some (.obj [("errorMessage", .str ""), ("error", .str "gone")]), none, "/q"⟩ =
      .mojang ⟨.notFound, 404, .str "gone"⟩ :=
  ((c5_detail_derivation 404 none "/q"
      [("errorMessage", .str ""), ("error", .str "gone")]).2).trans rfl

/-- C8: at the caller layer, a terminal `NotFound` (404) error and a
terminal `BadRequest` (400) error produce the same absent-result outcome
for every lookup operation — `None` for `get_uuid`, `get_username` and
`get_profile`, the empty dict for `get_uuids` — rather than a raised error. -/
theorem c8_notfound_badrequest_absent (d d' : Json) :
    getUuid (.error (.mojang ⟨.notFound, 404, d⟩)) = .ok none ∧
    getUuid (.error (.mojang ⟨.badRequest, 400, d'⟩)) = .ok none ∧
    getUuids (.error (.mojang ⟨.notFound, 404, d⟩)) = .ok [] ∧
    getUuids (.error (.mojang ⟨.badRequest, 400, d'⟩)) = .ok [] ∧
    getUsername (.error (.mojang ⟨.notFound, 404, d⟩)) = .ok none ∧
    getUsername (.error (.mojang ⟨.badRequest, 400, d'⟩)) = .ok none ∧
    getProfile (.error (.mojang ⟨.notFound, 404, d⟩)) = .ok none ∧
    getProfile (.error (.mojang ⟨.badRequest, 400, d'⟩)) = .ok none :=
  ⟨rfl, rfl, rfl, rfl, rfl, rfl, rfl, rfl⟩

/-- Witness for C8 at concrete detail payloads. -/
theorem c8_witness :
    getUuid (.error (.mojang ⟨.notFound, 404, .str "Not found"⟩)) = .ok none ∧
    getUuid (.error (.mojang ⟨.badRequest, 400, .str "Bad request"⟩)) = .ok none ∧
    getUuids (.error (.mojang ⟨.notFound, 404, .str "Not found"⟩)) = .ok [] ∧
    getUuids (.error (.mojang ⟨.badRequest, 400, .str "Bad request"⟩)) = .ok [] ∧
    getUsername (.error (.mojang ⟨.notFound, 404, .str "Not found"⟩)) = .ok none ∧
    getUsername (.error (.mojang ⟨.badRequest, 400, .str "Bad request"⟩)) = .ok none ∧
    getProfile (.error (.mojang ⟨.notFound, 404, .str "Not found"⟩)) = .ok none ∧
    getProfile (.error (.mojang ⟨.badRequest, 400, .str "Bad request"⟩)) = .ok none :=
  c8_notfound_badrequest_absent (.str "Not found") (.str "Bad request")

/-- C10: a successful (2xx) name lookup whose JSON body binds `id` to a
falsy value (such as the empty string) makes `get_uuid` return `None`, the
same outcome as a not-found status, rather than raising
`MalformedResponse` or parsing the value as a UUID. -/
theorem c10_falsy_id_yields_none (fields : List (String × Json)) (raw : Json)
    (hid : jsonLookup fields "id" = some raw) (hfalsy : raw.truthy = false) :
    getUuid (.ok (.obj fields)) = .ok none := by
  simp [getUuid, pyIndexStr, hid, hfalsy]

/-- Witness for C10: an `id` bound to the empty string. -/
theorem c10_witness : getUuid (.ok (.obj [("id", .str "")])) = .ok none :=
  c10_falsy_id_yields_none [("id", .str "")] (.str "") rfl rfl

/-- Decoding a raw profile document whose `properties[0].value` holds base64
text that parses to a JSON object, with required fields present and the
texture nodes dict-shaped, succeeds; every `UserProfile` field is the
corresponding payload field. -/
theorem parseProfile_ok_of_shape (doc : Json) (v : String) (bs : List Nat)
    (fs tfs sfs mfs cfs : List (String × Json)) (pid : String) (u : Nat) (ts nm : Json)
    (hval : extractValue doc = .ok (.str v))
    (hb64 : b64decode v = some bs)
    (hjson : jsonParseBytes bs = some (.obj fs))
    (hpid : jsonLookup fs "profileId" = some (.str pid))
    (hu : parseUUID pid = some u)
    (hts : jsonLookup fs "timestamp" = some ts)
    (hnm : jsonLookup fs "profileName" = some nm)
    (htex : (jsonLookup fs "textures").getD (.obj []) = .obj tfs)
    (hskin : (jsonLookup tfs "SKIN").getD (.obj []) = .obj sfs)
    (hmeta : (jsonLookup sfs "metadata").getD (.obj []) = .obj mfs)
    (hcape : (jsonLookup tfs "CAPE").getD (.obj []) = .obj cfs) :
    parseProfile doc = .ok
      ⟨u, ts, nm, ((jsonLookup fs "legacy").getD .null).truthy,
       (jsonLookup mfs "model").getD (.str "classic"),
       (jsonLookup sfs "url").getD .null,
       (jsonLookup cfs "url").getD .null⟩ := by
  simp only [parseProfile, hval, hb64, hjson, pyGet, htex, hskin, buildProfile,
    pyIndexStr, hpid, pyUUID, hu, hts, hnm, hmeta, hcape,
    Bind.bind, Except.bind, pure, Except.pure]

/-- C6: for every raw profile document whose `properties[0].value` is the
base64 encoding of well-formed profile JSON, decoding yields a
`UserProfile` whose fields match the payload: `id` parsed from `profileId`,
`name` from `profileName`, `is_legacy_profile` from `legacy` (absent =
false), `skin_url` and `skin_variant` from `textures.SKIN` (with default
`"classic"`), `cape_url` from `textures.CAPE.url`.  The witness instantiates
the section-8 example payload (yielding `name = "Notch"`, `skin_variant =
"slim"`, `skin_url = "http://x"`, `cape_url = None`) and the payload whose
`textures` has no `SKIN` key (yielding `skin_url = None`,
`skin_variant = "classic"`). -/
theorem c6_profile_roundtrip (doc : Json) (v : String) (bs : List Nat)
    (fs tfs sfs mfs cfs : List (String × Json)) (pid : String) (u : Nat) (ts nm : Json)
    (hval : extractValue doc = .ok (.str v))
    (hb64 : b64decode v = some bs)
    (hjson : jsonParseBytes bs = some (.obj fs))
    (hpid : jsonLookup fs "profileId" = some (.str pid))
    (hu : parseUUID pid = some u)
    (hts : jsonLookup fs "timestamp" = some ts)
    (hnm : jsonLookup fs "profileName" = some nm)
    (htex : (jsonLookup fs "textures").getD (.obj []) = .obj tfs)
    (hskin : (jsonLookup tfs "SKIN").getD (.obj []) = .obj sfs)
    (hmeta : (jsonLookup sfs "metadata").getD (.obj []) = .obj mfs)
    (hcape : (jsonLookup tfs "CAPE").getD (.obj []) = .obj cfs) :
    parseProfile doc = .ok
      ⟨u, ts, nm, ((jsonLookup fs "legacy").getD .null).truthy,
       (jsonLookup mfs "model").getD (.str "classic"),
       (jsonLookup sfs "url").getD .null,
       (jsonLookup cfs "url").getD .null⟩ :=
  parseProfile_ok_of_shape doc v bs fs tfs sfs mfs cfs pid u ts nm
    hval hb64 hjson hpid hu hts hnm htex hskin hmeta hcape

set_option maxRecDepth 100000 in
/-- Witness for C6: the section-8 example payload and the no-`SKIN` payload. -/
theorem c6_witness :
    parseProfile (mkProfileDoc b64SlimPayload) =
      .ok ⟨exampleUUID, .num 1, .str "Notch", false, .str "slim", .str "http://x", .null⟩ ∧
    parseProfile (mkProfileDoc b64NoSkinPayload) =
      .ok ⟨exampleUUID, .num 1, .str "Notch", false, .str "classic", .null, .null⟩ :=
  ⟨(c6_profile_roundtrip (mkProfileDoc b64SlimPayload) b64SlimPayload _ _ _ _ _ _ _ _ _ _
      rfl rfl rfl rfl rfl rfl rfl rfl rfl rfl rfl).trans rfl,
   (c6_profile_roundtrip (mkProfileDoc b64NoSkinPayload) b64NoSkinPayload _ _ _ _ _ _ _ _ _ _
      rfl rfl rfl rfl rfl rfl rfl rfl rfl rfl rfl).trans rfl⟩

set_option maxRecDepth 100000 in
/-- C7 is false as stated: a payload whose required `timestamp` field is
present but mistyped (the JSON string `"hi"` instead of an integer) does not
fail at all — `_parse_profile` performs no type check on `timestamp` (or
`profileName`) and returns a `UserProfile` carrying the mistyped value. -/
theorem c7_counterexample :
    parseProfile (mkProfileDoc b64BadTimestampPayload) =
      .ok ⟨exampleUUID, .str "hi", .str "Notch", false, .str "classic", .null, .null⟩ := rfl

/-- C7 (amended): decoding fails with `MalformedResponse` whenever the
`properties[0].value` path is missing (within dict/list-shaped documents),
the value fails base64 decoding, the decoded text fails JSON parsing, a
required key among `profileId`/`timestamp`/`profileName` is absent, or
`profileId` is a string that is not a valid UUID — the last three provided
the `textures`/`SKIN` nodes are dict-shaped (a non-dict there escapes with
`AttributeError` instead).  Mistyped present `timestamp`/`profileName`
values are not detected (see the counterexample). -/
theorem c7_structural_malformed (doc : Json) (h : profileStructFailure doc) :
    isMalformedFailure (parseProfile doc) = true := by
  rcases h with h1 | h2 | ⟨v, hval, hb⟩ | ⟨v, bs, hval, hb, hj⟩ |
    ⟨v, bs, fs, tfs, sfs, hval, hb, hj, htex, hskin, hfield⟩
  · rw [parseProfile, h1]; rfl
  · rw [parseProfile, h2]; rfl
  · simp only [parseProfile, hval, hb]; rfl
  · simp only [parseProfile, hval, hb, hj]; rfl
  · simp only [parseProfile, hval, hb, hj, pyGet, htex, hskin]
    rcases hfield with hfp | ⟨pid, hp, hpu⟩ | ⟨pid, u2, hp, hpu, hrest⟩
    · simp [buildProfile, pyIndexStr, hfp, Bind.bind, Except.bind,
        isMalformedFailure, profileFieldsError]
    · simp [buildProfile, pyIndexStr, hp, pyUUID, hpu, Bind.bind, Except.bind,
        isMalformedFailure, profileFieldsError]
    · rcases hrest with hts | ⟨htsome, hnm⟩
      · simp [buildProfile, pyIndexStr, hp, pyUUID, hpu, hts, Bind.bind, Except.bind,
          isMalformedFailure, profileFieldsError]
      · obtain ⟨ts, hts⟩ := Option.isSome_iff_exists.mp htsome
        simp [buildProfile, pyIndexStr, hp, pyUUID, hpu, hts, hnm, Bind.bind, Except.bind,
          isMalformedFailure, profileFieldsError]

/-- Witness for C7 (amended): a non-base64 (truncated) `properties[0].value`. -/
theorem c7_witness : isMalformedFailure (parseProfile (mkProfileDoc "abc")) = true :=
  c7_structural_malformed (mkProfileDoc "abc")
    (Or.inr (Or.inr (Or.inl ⟨"abc", rfl, rfl⟩)))

set_option maxRecDepth 100000 in
/-- C9 is false as stated: `skin_variant` is not always a non-empty string —
a payload whose `textures.SKIN.metadata.model` is the empty string yields a
`UserProfile` with `skin_variant = ""`, because the `"classic"` default
applies only when the `model` key is absent. -/
theorem c9_counterexample :
    parseProfile (mkProfileDoc b64EmptyModelPayload) =
      .ok ⟨exampleUUID, .num 1, .str "N", false, .str "", .str "http://x", .null⟩ := rfl

/-- C9 (amended): the decoded profile's `skin_variant` is `"classic"`
exactly when the texture metadata omits the `model` key; otherwise it is the
`model` value verbatim — which may be empty (see the counterexample) or even
a non-string value. -/
theorem c9_skin_variant_default (doc : Json) (v : String) (bs : List Nat)
    (fs tfs sfs mfs cfs : List (String × Json)) (pid : String) (u : Nat) (ts nm : Json)
    (hval : extractValue doc = .ok (.str v))
    (hb64 : b64decode v = some bs)
    (hjson : jsonParseBytes bs = some (.obj fs))
    (hpid : jsonLookup fs "profileId" = some (.str pid))
    (hu : parseUUID pid = some u)
    (hts : jsonLookup fs "timestamp" = some ts)
    (hnm : jsonLookup fs "profileName" = some nm)
    (htex : (jsonLookup fs "textures").getD (.obj []) = .obj tfs)
    (hskin : (jsonLookup tfs "SKIN").getD (.obj []) = .obj sfs)
    (hmeta : (jsonLookup sfs "metadata").getD (.obj []) = .obj mfs)
    (hcape : (jsonLookup tfs "CAPE").getD (.obj []) = .obj cfs) :
    (parseProfile doc).map UserProfile.skin_variant =
      .ok ((jsonLookup mfs "model").getD (.str "classic")) := by
  rw [parseProfile_ok_of_shape doc v bs fs tfs sfs mfs cfs pid u ts nm
    hval hb64 hjson hpid hu hts hnm htex hskin hmeta hcape]
  rfl

set_option maxRecDepth 100000 in
/-- Witness for C9 (amended): the no-`SKIN` payload, whose metadata omits
`model`, decodes with `skin_variant = "classic"`. -/
theorem c9_witness :
    (parseProfile (mkProfileDoc b64NoSkinPayload)).map UserProfile.skin_variant =
      .ok (.str "classic") :=
  (c9_skin_variant_default (mkProfileDoc b64NoSkinPayload) b64NoSkinPayload _ _ _ _ _ _ _ _ _ _
      rfl rfl rfl rfl rfl rfl rfl rfl rfl rfl rfl).trans rfl

end AsyncMojang
